import Mathlib

/-!
Verification of the dual-backend item store in src/app.py.

The Flask handlers and store helpers are shallowly embedded as pure Lean
functions.  Outcomes of external calls (the Cloudinary API, the JSON
parser, the filesystem) are passed in as explicit arguments of Except or
Bool type, so every control path of the Python code, including the paths
where an external call raises, is represented.  A handler that lets an
exception escape is modelled by the Outcome.raised constructor.
-/

namespace LimgpMoments

/-- A Python exception value, identified by its message. -/
inductive PyExn where
  | mk (msg : String)
deriving DecidableEq

/-- A json.JSONDecodeError raised by the external json.loads parser. -/
inductive JsonError where
  | mk (msg : String)
deriving DecidableEq

/-- The collection tag (TAG in src/app.py, line 25). -/
def TAG : String := "limgp_moments"

/-- The remote folder (CLOUD_FOLDER in src/app.py, line 24). -/
def CLOUD_FOLDER : String := "limgp_moments"

/-- Allowed upload extensions (ALLOWED_EXTS in src/app.py, line 22). -/
def ALLOWED_EXTS : List String := [".jpg", ".jpeg", ".png", ".gif", ".webp"]

/-- A remote asset dict as returned by the Cloudinary API; only the keys read
by src/app.py are modelled.  A field is none when the key is absent from the
dict (Python r.get returning None). -/
structure Asset where
  asset_id : Option String
  public_id : Option String
  secure_url : Option String
  url : Option String
  tags : Option (List String)
  context : Option (List (String × String))
  created_at : Option String
deriving DecidableEq

/-- Python str.strip(): removes leading and trailing whitespace. -/
def pyStrip (s : String) : String :=
  String.mk (((s.toList.dropWhile Char.isWhitespace).reverse.dropWhile Char.isWhitespace).reverse)

/-- Python str.lower(): lower-cases every character. -/
def pyLower (s : String) : String :=
  String.mk (s.toList.map Char.toLower)

/-- Python `a or b` on string-or-None values: b when a is None or empty. -/
def pyOr (a b : Option String) : Option String :=
  match a with
  | some s => if s = "" then b else some s
  | none => b

/-- An item dict, the Record shape of the store.  Local records carry the
image key; cloud records carry public_id and image_url (absent keys are
none). -/
structure Item where
  id : Option String
  source : String
  public_id : Option String := none
  image : Option String := none
  image_url : Option String := none
  caption : String
  created_at : String
deriving DecidableEq

/-- Models the external cloudinary.utils.cloudinary_url helper (library code,
not part of this repository): builds a secure delivery URL for the public id
with automatic format negotiation (fetch_format auto).  Modelled as a URL
derived from the public id alone. -/
def cloudinary_url (public_id : String) : String :=
  "https://res.cloudinary.com/image/upload/f_auto/" ++ public_id

/-- Lines 68-90 of src/app.py: the loop body of the USE_CLOUDINARY branch of
_load_items, mapping one remote asset dict to an item dict. -/
def assetToItem (r : Asset) : Item :=
  let context := r.context.getD []
  let caption := (context.lookup "caption").getD ""
  let public_id := r.public_id.getD ""
  let image_url := pyOr r.secure_url r.url
  let image_url := if public_id ≠ "" then some (cloudinary_url public_id) else image_url
  { id := pyOr r.asset_id r.public_id
    source := "cloud"
    public_id := some public_id
    image := none
    image_url := image_url
    caption := caption
    created_at := r.created_at.getD "" }

/-- Line 91 of src/app.py: items.sort with key created_at (or empty string)
and reverse true.  Python sort with reverse true is a stable descending
sort, which mergeSort with this relation reproduces exactly. -/
def byCreatedDesc (a b : Item) : Bool :=
  decide (b.created_at ≤ a.created_at)

/-- The sorted listing of line 91 of src/app.py. -/
def sortByCreatedDesc (items : List Item) : List Item :=
  items.mergeSort byCreatedDesc

/-- Lines 36-92 of src/app.py: the USE_CLOUDINARY branch of _load_items.
search is the outcome of the tag-indexed cloudinary.Search call (its
resources field on success); resApi is the outcome of the
cloudinary.api.resources prefix-listing call.  The second component counts
how many times the prefix-listing fallback API was invoked.  Both try/except
blocks of the source catch every exception and substitute an empty resource
list, so the returned Except is built at the end of the straight-line
remainder. -/
def remoteLoadItems (search resApi : Except PyExn (List Asset)) :
    Except PyExn (List Item) × Nat :=
  let resources : List Asset :=
    match search with
    | .ok rs => rs
    | .error _ => []
  let fall : List Asset × Nat :=
    if resources.isEmpty then
      (match resApi with
       | .ok rs => rs.filter (fun r => (r.tags.getD []).contains TAG)
       | .error _ => [], 1)
    else (resources, 0)
  (Except.ok (sortByCreatedDesc (fall.1.map assetToItem)), fall.2)

/-- The state of the local JSON index file (DATA_FILE).  The content of a
present file is represented by the outcome of parsing it with the external
json.loads: a JSONDecodeError, or the decoded list of records. -/
inductive DataFile where
  | absent
  | present (parsed : Except JsonError (List Item))

/-- Lines 93-98 of src/app.py: the local branch of _load_items.  Absent file
yields empty; a parse failure is caught and yields empty. -/
def localLoadItems : DataFile → List Item
  | .absent => []
  | .present (.error _) => []
  | .present (.ok items) => items

/-- Environment-derived configuration: UPLOAD_TOKEN (empty when unset) and
the presence of CLOUDINARY_URL (USE_CLOUDINARY, line 26). -/
structure Env where
  uploadToken : String
  useCloudinary : Bool
deriving DecidableEq

/-- The local filesystem state visible to the handlers: the file names
present in UPLOAD_DIR, and the JSON index file. -/
structure LocalState where
  uploads : List String
  dataFile : DataFile

/-- _load_items (lines 35-98 of src/app.py), both branches. -/
def load_items (env : Env) (df : DataFile)
    (search resApi : Except PyExn (List Asset)) : Except PyExn (List Item) :=
  if env.useCloudinary then (remoteLoadItems search resApi).1
  else Except.ok (localLoadItems df)

/-- _save_items (lines 101-104 of src/app.py): returns without writing in
cloudinary mode; otherwise rewrites DATA_FILE with the serialized items
(write_text raises on an I/O failure, modelled by the writeOk oracle; a
successful write stores json.dumps output, which json.loads decodes back to
the same records). -/
def save_items (env : Env) (items : List Item) (writeOk : Bool)
    (df : DataFile) : Except PyExn DataFile :=
  if env.useCloudinary then Except.ok df
  else if writeOk then Except.ok (DataFile.present (Except.ok items))
  else Except.error (PyExn.mk "OSError: write_text failed")

/-- A redirect response to the gallery with a flashed message and level. -/
structure Response where
  msg : String
  level : String
deriving DecidableEq

/-- What a request handler does: return a redirect response, or let an
exception escape uncaught. -/
inductive Outcome where
  | redirect (r : Response)
  | raised (e : PyExn)
deriving DecidableEq

/-- Models the external werkzeug.utils.secure_filename sanitiser (library
code, not part of this repository): path separators are neutralised so the
result is a plain file name; the extension of an ordinary file name is kept
unchanged. -/
def secure_filename (s : String) : String :=
  String.mk (s.toList.map (fun c => if c = '/' ∨ c = '\\' then '_' else c))

/-- pathlib.PurePath(name).suffix as used on line 133 of src/app.py: the
substring from the last dot, or empty when the name has no dot, when its
only dot is the leading character, or when it ends in a dot. -/
def pathSuffix (name : String) : String :=
  let cs := name.toList
  let tail := cs.reverse.takeWhile (fun c => c ≠ '.')
  if tail.length = cs.length then ""
  else
    let i := cs.length - 1 - tail.length
    if 0 < i ∧ i < cs.length - 1 then String.mk ('.' :: tail.reverse) else ""

/-- The form fields of a POST /upload request.  caption and token are the
raw form values with Python form.get-or-empty applied; file is the uploaded
file part identified by its client file name (none when no part was sent). -/
structure UploadRequest where
  caption : String
  token : String
  file : Option String
deriving DecidableEq

/-- The upload handler (lines 121-165 of src/app.py).  cloudUpload is the
outcome of the external cloudinary.uploader.upload call; search and resApi
feed the _load_items call; freshName and freshId are the two uuid4 hex
strings drawn on lines 149 and 156; now is datetime.now().isoformat;
saveOk is whether file.save succeeds (its failure raises and, having no
enclosing try, escapes the handler); writeOk is whether the index
write_text succeeds. -/
def upload (env : Env) (req : UploadRequest) (st : LocalState)
    (cloudUpload : Except PyExn Unit)
    (search resApi : Except PyExn (List Asset))
    (freshName freshId now : String)
    (saveOk writeOk : Bool) : Outcome × LocalState :=
  let caption := pyStrip req.caption
  let token := pyStrip req.token
  let required := pyStrip env.uploadToken
  if required ≠ "" ∧ token ≠ required then
    (Outcome.redirect ⟨"上传口令不正确", "error"⟩, st)
  else
    match req.file with
    | none => (Outcome.redirect ⟨"请选择图片文件", "error"⟩, st)
    | some origName =>
      if origName = "" then (Outcome.redirect ⟨"请选择图片文件", "error"⟩, st)
      else
        let filename := secure_filename origName
        let ext := pyLower (pathSuffix filename)
        if ext ∉ ALLOWED_EXTS then
          (Outcome.redirect ⟨"仅支持 JPG/PNG/GIF/WEBP 图片", "error"⟩, st)
        else if env.useCloudinary then
          match cloudUpload with
          | .error _ => (Outcome.redirect ⟨"上传失败，请稍后再试", "error"⟩, st)
          | .ok _ => (Outcome.redirect ⟨"上传成功", "success"⟩, st)
        else
          let unique_name := freshName ++ ext
          if saveOk = false then (Outcome.raised (PyExn.mk "OSError: file save failed"), st)
          else
            let st1 : LocalState := { st with uploads := st.uploads ++ [unique_name] }
            match load_items env st1.dataFile search resApi with
            | .error e => (Outcome.raised e, st1)
            | .ok items =>
              let newRecord : Item :=
                { id := some freshId
                  source := "local"
                  image := some unique_name
                  caption := caption
                  created_at := now }
              let items := items ++ [newRecord]
              match save_items env items writeOk st1.dataFile with
              | .error e => (Outcome.raised e, st1)
              | .ok df => (Outcome.redirect ⟨"上传成功", "success"⟩,
                  { st1 with dataFile := df })

/-- The form fields of a POST /delete request, with form.get-or-empty
applied. -/
structure DeleteRequest where
  token : String
  source : String
  public_id : String
  filename : String
deriving DecidableEq

/-- The delete handler (lines 173-206 of src/app.py).  destroy is the
outcome of the external cloudinary.uploader.destroy call; search and resApi
feed the _load_items call; unlinkOk is whether Path.unlink succeeds when the
file exists (its failure is caught by the try on lines 195-201); writeOk is
whether the index write_text succeeds (that call sits outside the try, so
its failure escapes the handler). -/
def delete (env : Env) (req : DeleteRequest) (st : LocalState)
    (destroy : Except PyExn Unit)
    (search resApi : Except PyExn (List Asset))
    (unlinkOk writeOk : Bool) : Outcome × LocalState :=
  let token := pyStrip req.token
  let required := pyStrip env.uploadToken
  if required ≠ "" ∧ token ≠ required then
    (Outcome.redirect ⟨"管理口令不正确", "error"⟩, st)
  else
    let source := pyStrip req.source
    if source = "cloud" then
      let public_id := pyStrip req.public_id
      if public_id = "" then
        (Outcome.redirect ⟨"删除失败：缺少文件信息", "error"⟩, st)
      else
        match destroy with
        | .error _ => (Outcome.redirect ⟨"删除失败，请稍后再试", "error"⟩, st)
        | .ok _ => (Outcome.redirect ⟨"已删除", "success"⟩, st)
    else
      let filename := pyStrip req.filename
      if filename = "" then
        (Outcome.redirect ⟨"删除失败：缺少文件信息", "error"⟩, st)
      else if filename ∈ st.uploads ∧ unlinkOk = false then
        (Outcome.redirect ⟨"删除失败，请稍后再试", "error"⟩, st)
      else
        let st1 : LocalState := { st with uploads := st.uploads.filter (fun f => f ≠ filename) }
        match load_items env st1.dataFile search resApi with
        | .error e => (Outcome.raised e, st1)
        | .ok items =>
          let items := items.filter (fun i => i.image ≠ some filename)
          match save_items env items writeOk st1.dataFile with
          | .error e => (Outcome.raised e, st1)
          | .ok df => (Outcome.redirect ⟨"已删除", "success"⟩,
              { st1 with dataFile := df })

/-! ## Sample data for witnesses and counterexamples -/

/-- A local record created earlier (oldest timestamp). -/
def oldItem : Item :=
  { id := some "id-old", source := "local", image := some "old.png",
    caption := "old", created_at := "2024-01-01T00:00:00" }

/-- A local record created later (newest timestamp). -/
def newItem : Item :=
  { id := some "id-new", source := "local", image := some "new.png",
    caption := "new", created_at := "2024-02-02T00:00:00" }

/-- A well-formed remote asset carrying the collection tag. -/
def sampleAsset : Asset :=
  { asset_id := some "asset-1", public_id := some "limgp_moments/pic1",
    secure_url := some "https://res.cloudinary.com/stored/pic1.jpg", url := none,
    tags := some ["limgp_moments"], context := some [("caption", "hello")],
    created_at := some "2024-05-05T10:00:00" }

/-- An asset lacking a public identifier but carrying a stored secure_url. -/
def noPublicIdAsset : Asset :=
  { asset_id := some "asset-2", public_id := none,
    secure_url := some "https://stored.example/x.jpg", url := none,
    tags := some ["limgp_moments"], context := none,
    created_at := some "2024-03-03T00:00:00" }

/-- Local-backend configuration with no upload secret. -/
def env0 : Env := { uploadToken := "", useCloudinary := false }

/-- Local-backend configuration with the secret s3cret. -/
def env1 : Env := { uploadToken := "s3cret", useCloudinary := false }

/-- Remote-backend configuration (CLOUDINARY_URL present). -/
def envC : Env := { uploadToken := "", useCloudinary := true }

/-- A local state holding one payload file and a one-record index. -/
def st0 : LocalState :=
  { uploads := ["old.png"], dataFile := DataFile.present (Except.ok [oldItem]) }

/-- A valid upload request with an empty token. -/
def upReq0 : UploadRequest := { caption := "sunset", token := "", file := some "photo.png" }

/-- An upload request carrying a wrong token. -/
def upReqWrong : UploadRequest := { caption := "sunset", token := "nope", file := some "photo.png" }

/-- A local delete request with an empty token. -/
def delReq0 : DeleteRequest := { token := "", source := "local", public_id := "", filename := "old.png" }

/-- A local delete request carrying a wrong token. -/
def delReqWrong : DeleteRequest := { token := "nope", source := "local", public_id := "", filename := "old.png" }

/-! ## Helper lemmas -/

/-- The listing sort relation is transitive. -/
theorem byCreatedDesc_trans : ∀ a b c : Item,
    byCreatedDesc a b → byCreatedDesc b c → byCreatedDesc a c := by
  intro a b c hab hbc
  simp only [byCreatedDesc, decide_eq_true_eq] at hab hbc ⊢
  exact le_trans hbc hab

/-- The listing sort relation is total. -/
theorem byCreatedDesc_total : ∀ a b : Item,
    byCreatedDesc a b || byCreatedDesc b a := by
  intro a b
  simp only [byCreatedDesc, Bool.or_eq_true, decide_eq_true_eq]
  exact le_total b.created_at a.created_at

/-- The output of sortByCreatedDesc is non-increasing in created_at. -/
theorem sortByCreatedDesc_pairwise (l : List Item) :
    (sortByCreatedDesc l).Pairwise (fun a b => b.created_at ≤ a.created_at) := by
  have h : (l.mergeSort byCreatedDesc).Pairwise (fun a b => byCreatedDesc a b = true) :=
    List.sorted_mergeSort byCreatedDesc_trans byCreatedDesc_total l
  exact h.imp (fun hab => by simpa [byCreatedDesc] using hab)

/-- The output of sortByCreatedDesc is a permutation of its input. -/
theorem sortByCreatedDesc_perm (l : List Item) :
    (sortByCreatedDesc l).Perm l :=
  List.mergeSort_perm l byCreatedDesc

/-! ## Claims -/

/-- C1: for every remote-backend list call, whatever the outcomes of the
tag-search call and the prefix-listing call (any API or transport failure
included), the operation never raises to the caller; when both calls fail
it returns the empty sequence. -/
theorem claim1_remote_list_never_raises :
    (∀ search resApi, ((remoteLoadItems search resApi).1).isOk = true) ∧
    (∀ e e', (remoteLoadItems (Except.error e) (Except.error e')).1 = Except.ok []) := by
  refine ⟨fun _ _ => rfl, fun e e' => ?_⟩
  simp [remoteLoadItems, sortByCreatedDesc]

/-- C2: when the tag-indexed search returns zero results or raises, the
prefix-listing fallback call is made exactly once, and the assets of that
call filtered client-side to those carrying the collection tag become the
results (re-ordered only by the final sort). -/
theorem claim2_fallback_exercised_once (search resApi : Except PyExn (List Asset))
    (h : search = Except.ok [] ∨ ∃ e, search = Except.error e) :
    (remoteLoadItems search resApi).2 = 1 ∧
    ∀ rs, resApi = Except.ok rs →
      ∃ items, (remoteLoadItems search resApi).1 = Except.ok items ∧
        items.Perm ((rs.filter (fun r => (r.tags.getD []).contains TAG)).map assetToItem) := by
  rcases h with h | ⟨e, h⟩ <;> subst h <;>
    refine ⟨rfl, fun rs hr => ?_⟩ <;> subst hr <;>
    exact ⟨_, rfl, sortByCreatedDesc_perm _⟩

/-- C2 witness: with a search that returns zero results and a fallback
listing holding one tagged asset, the fallback is invoked once and its
filtered assets are the results. -/
theorem claim2_fallback_exercised_once_witness :
    ((Except.ok [] : Except PyExn (List Asset)) = Except.ok [] ∨
      ∃ e, (Except.ok [] : Except PyExn (List Asset)) = Except.error e) ∧
    (remoteLoadItems (Except.ok []) (Except.ok [sampleAsset])).2 = 1 ∧
    ∃ items, (remoteLoadItems (Except.ok []) (Except.ok [sampleAsset])).1 = Except.ok items ∧
      items.Perm (([sampleAsset].filter (fun r => (r.tags.getD []).contains TAG)).map assetToItem) :=
  ⟨Or.inl rfl, (claim2_fallback_exercised_once _ _ (Or.inl rfl)).1,
   (claim2_fallback_exercised_once _ _ (Or.inl rfl)).2 [sampleAsset] rfl⟩

/-- C3 counterexample: with the index file holding two records in insertion
order (oldest first), the local branch of _load_items returns them in that
stored order, and the adjacent pair violates created_at-descending order,
so a listing returned by the local backend is not sorted descending. -/
theorem claim3_counterexample_local_list_unsorted :
    localLoadItems (DataFile.present (Except.ok [oldItem, newItem])) = [oldItem, newItem] ∧
    ¬ (newItem.created_at ≤ oldItem.created_at) := by
  refine ⟨rfl, ?_⟩
  rw [not_le]
  show (("2024-01-01T00:00:00" : String) < "2024-02-02T00:00:00")
  rw [String.lt_iff_toList_lt]
  decide

/-- C3 corrected: listings produced by the remote branch of _load_items are
sorted by created_at descending (string comparison), while the local branch
returns the index-file records in stored insertion order without sorting. -/
theorem claim3_amended_sort_order :
    (∀ search resApi items, (remoteLoadItems search resApi).1 = Except.ok items →
      items.Pairwise (fun a b => b.created_at ≤ a.created_at)) ∧
    (∀ l, localLoadItems (DataFile.present (Except.ok l)) = l) := by
  constructor
  · intro s r items h
    simp only [remoteLoadItems, Except.ok.injEq] at h
    exact h ▸ sortByCreatedDesc_pairwise _
  · intro l
    rfl

/-- C3 amended witness: a concrete one-element remote listing is sorted,
and a concrete local index is returned verbatim. -/
theorem claim3_amended_sort_order_witness :
    List.Pairwise (fun a b : Item => b.created_at ≤ a.created_at) [assetToItem sampleAsset] ∧
    localLoadItems (DataFile.present (Except.ok [oldItem])) = [oldItem] :=
  ⟨claim3_amended_sort_order.1 (Except.ok [sampleAsset]) (Except.ok [])
      [assetToItem sampleAsset] (by simp [remoteLoadItems, sortByCreatedDesc]),
   claim3_amended_sort_order.2 [oldItem]⟩

/-- C4: the local branch of _load_items returns the empty sequence when the
index file is absent, and returns the empty sequence rather than raising
when its content fails to parse. -/
theorem claim4_local_list_degrades_to_empty :
    localLoadItems DataFile.absent = [] ∧
    ∀ e, localLoadItems (DataFile.present (Except.error e)) = [] :=
  ⟨rfl, fun _ => rfl⟩

/-- The success path of the local branch of the delete handler: with the
token gate passed, a local source, a non-empty file name, and no unlink
fault, the handler unlinks the file (when present), filters the index, and
redirects with the success message. -/
theorem delete_local_success (env : Env) (req : DeleteRequest) (st : LocalState)
    (d : Except PyExn Unit) (s r : Except PyExn (List Asset)) (u : Bool)
    (hcloud : env.useCloudinary = false)
    (htoken : pyStrip env.uploadToken = "" ∨ pyStrip req.token = pyStrip env.uploadToken)
    (hsource : pyStrip req.source ≠ "cloud")
    (hname : pyStrip req.filename ≠ "")
    (hunlink : pyStrip req.filename ∉ st.uploads ∨ u = true) :
    delete env req st d s r u true =
      (Outcome.redirect ⟨"已删除", "success"⟩,
       { uploads := st.uploads.filter (fun f => f ≠ pyStrip req.filename),
         dataFile := DataFile.present (Except.ok
           ((localLoadItems st.dataFile).filter
             (fun i => i.image ≠ some (pyStrip req.filename)))) }) := by
  have hc1 : ¬ (pyStrip env.uploadToken ≠ "" ∧ pyStrip req.token ≠ pyStrip env.uploadToken) := by
    rcases htoken with h | h <;> simp [h]
  have hc4 : ¬ (pyStrip req.filename ∈ st.uploads ∧ u = false) := by
    rcases hunlink with h | h <;> simp [h]
  simp [delete, load_items, save_items, hc1, hsource, hname, hc4, hcloud]

/-- C5: local-backend delete is idempotent.  With a fault-free filesystem,
a delete whose target file may or may not exist succeeds, a second delete
of the same locator succeeds whatever the second unlink oracle says (the
file is already gone, so unlink is never attempted), and after either call
no record referencing the locator remains in the listing. -/
theorem claim5_local_delete_idempotent (env : Env) (req : DeleteRequest) (st : LocalState)
    (d1 d2 : Except PyExn Unit) (s r : Except PyExn (List Asset)) (u2 : Bool)
    (hcloud : env.useCloudinary = false)
    (htoken : pyStrip env.uploadToken = "" ∨ pyStrip req.token = pyStrip env.uploadToken)
    (hsource : pyStrip req.source ≠ "cloud")
    (hname : pyStrip req.filename ≠ "") :
    (delete env req st d1 s r true true).1 = Outcome.redirect ⟨"已删除", "success"⟩ ∧
    (delete env req (delete env req st d1 s r true true).2 d2 s r u2 true).1
      = Outcome.redirect ⟨"已删除", "success"⟩ ∧
    (∀ i ∈ localLoadItems (delete env req st d1 s r true true).2.dataFile,
      i.image ≠ some (pyStrip req.filename)) ∧
    (∀ i ∈ localLoadItems
        (delete env req (delete env req st d1 s r true true).2 d2 s r u2 true).2.dataFile,
      i.image ≠ some (pyStrip req.filename)) := by
  have h1 := delete_local_success env req st d1 s r true hcloud htoken hsource hname (Or.inr rfl)
  have hnm : pyStrip req.filename ∉
      st.uploads.filter (fun f => f ≠ pyStrip req.filename) := by
    simp
  rw [h1]
  have h2 := delete_local_success env req
    { uploads := st.uploads.filter (fun f => f ≠ pyStrip req.filename),
      dataFile := DataFile.present (Except.ok
        ((localLoadItems st.dataFile).filter
          (fun i => i.image ≠ some (pyStrip req.filename)))) }
    d2 s r u2 hcloud htoken hsource hname (Or.inl hnm)
  rw [h2]
  refine ⟨rfl, rfl, ?_, ?_⟩
  · intro i hi
    simp only [localLoadItems, List.mem_filter, decide_eq_true_eq] at hi
    exact hi.2
  · intro i hi
    simp only [localLoadItems, List.mem_filter, decide_eq_true_eq] at hi
    exact hi.2

/-- C10: on a local delete whose target file exists but whose unlink raises
a filesystem error, the handler returns the error redirect and the whole
local state, the JSON index file in particular, is unchanged. -/
theorem claim10_unlink_failure_leaves_index_unchanged (env : Env) (req : DeleteRequest)
    (st : LocalState) (d : Except PyExn Unit) (s r : Except PyExn (List Asset)) (w : Bool)
    (htoken : pyStrip env.uploadToken = "" ∨ pyStrip req.token = pyStrip env.uploadToken)
    (hsource : pyStrip req.source ≠ "cloud")
    (hname : pyStrip req.filename ≠ "")
    (hmem : pyStrip req.filename ∈ st.uploads) :
    delete env req st d s r false w =
      (Outcome.redirect ⟨"删除失败，请稍后再试", "error"⟩, st) := by
  have hc1 : ¬ (pyStrip env.uploadToken ≠ "" ∧ pyStrip req.token ≠ pyStrip env.uploadToken) := by
    rcases htoken with h | h <;> simp [h]
  simp [delete, hc1, hsource, hname, hmem]

/-- C6 counterexample: a fully valid local upload whose disk write fails
ends in an uncaught exception escaping the handler, not in any redirect
(in particular not in the generic try-again-later error message the claim
promises): file.save on line 151 of src/app.py has no enclosing
try/except. -/
theorem claim6_counterexample_write_failure_not_redirected :
    (upload env0 upReq0 st0 (Except.ok ()) (Except.ok []) (Except.ok [])
        "aaaa" "bbbb" "2024-06-06T00:00:00" false true).1
      = Outcome.raised (PyExn.mk "OSError: file save failed") := by
  decide

/-- C6 amended: when the local payload write fails, the exception
propagates out of the upload handler uncaught (no redirect response is
produced), and the local state, the JSON index included, is unchanged. -/
theorem claim6_amended_local_write_failure_raises (env : Env) (req : UploadRequest)
    (st : LocalState) (cu : Except PyExn Unit) (s r : Except PyExn (List Asset))
    (a b c : String) (w : Bool)
    (hcloud : env.useCloudinary = false)
    (htoken : pyStrip env.uploadToken = "" ∨ pyStrip req.token = pyStrip env.uploadToken)
    (hfile : ∃ n, req.file = some n ∧ n ≠ "" ∧
        pyLower (pathSuffix (secure_filename n)) ∈ ALLOWED_EXTS) :
    upload env req st cu s r a b c false w =
      (Outcome.raised (PyExn.mk "OSError: file save failed"), st) := by
  obtain ⟨n, hn, hne, hext⟩ := hfile
  have hc1 : ¬ (pyStrip env.uploadToken ≠ "" ∧ pyStrip req.token ≠ pyStrip env.uploadToken) := by
    rcases htoken with h | h <;> simp [h]
  simp [upload, hc1, hn, hne, hext, hcloud]

/-- C7 counterexample: an asset with no public identifier but a stored
secure_url is mapped with display_url taken verbatim from the stored
secure_url, not recomputed from the locator. -/
theorem claim7_counterexample_display_url_from_stored_data :
    (assetToItem noPublicIdAsset).image_url = some "https://stored.example/x.jpg" ∧
    (assetToItem noPublicIdAsset).image_url ≠
      some (cloudinary_url ((assetToItem noPublicIdAsset).public_id.getD "")) := by
  constructor
  · rfl
  · decide

/-- C7 corrected: every item produced by either listing path is the field
mapping of some remote asset, and that mapping sets source to cloud,
locator to the public identifier, id to the asset id falling back to the
public identifier, caption to the context field named caption (empty when
absent), created_at to the asset's reported creation timestamp, and
display_url recomputed from the locator only when the public identifier is
non-empty — when it is absent or empty, display_url falls back to the
stored secure_url-or-url. -/
theorem claim7_amended_record_mapping :
    (∀ search resApi items, (remoteLoadItems search resApi).1 = Except.ok items →
      ∀ i ∈ items, ∃ a, i = assetToItem a) ∧
    ∀ r : Asset,
      (assetToItem r).source = "cloud" ∧
      (assetToItem r).public_id = some (r.public_id.getD "") ∧
      (∀ a, r.asset_id = some a → a ≠ "" → (assetToItem r).id = some a) ∧
      (r.asset_id = none → (assetToItem r).id = r.public_id) ∧
      (∀ c, (r.context.getD []).lookup "caption" = some c → (assetToItem r).caption = c) ∧
      ((r.context.getD []).lookup "caption" = none → (assetToItem r).caption = "") ∧
      (∀ t, r.created_at = some t → (assetToItem r).created_at = t) ∧
      (∀ p, r.public_id = some p → p ≠ "" →
        (assetToItem r).image_url = some (cloudinary_url p)) ∧
      ((r.public_id = none ∨ r.public_id = some "") →
        (assetToItem r).image_url = pyOr r.secure_url r.url) := by
  constructor
  · intro s r items h i hi
    simp only [remoteLoadItems, Except.ok.injEq] at h
    subst h
    rw [sortByCreatedDesc] at hi
    rcases List.mem_map.1 (List.mem_mergeSort.1 hi) with ⟨a, _, ha⟩
    exact ⟨a, ha.symm⟩
  · intro r
    refine ⟨rfl, rfl, ?_, ?_, ?_, ?_, ?_, ?_, ?_⟩
    · intro a ha hne
      simp [assetToItem, pyOr, ha, hne]
    · intro ha
      simp [assetToItem, pyOr, ha]
    · intro c hc
      simp [assetToItem, hc]
    · intro hc
      simp [assetToItem, hc]
    · intro t ht
      simp [assetToItem, ht]
    · intro p hp hpne
      simp [assetToItem, hp, hpne]
    · intro hp
      rcases hp with hp | hp <;> simp [assetToItem, hp]

/-- C8: when a secret token is configured (non-empty after stripping) and
the supplied token does not equal it, the upload and delete handlers
redirect with an error-level message and leave the state untouched before
any store call; when no secret is configured, the supplied token is
irrelevant and the request proceeds identically. -/
theorem claim8_token_check (env : Env) (ureq : UploadRequest) (dreq : DeleteRequest)
    (st : LocalState) (cu d : Except PyExn Unit) (s r : Except PyExn (List Asset))
    (a b c : String) (so wo u w : Bool) :
    (pyStrip env.uploadToken ≠ "" → pyStrip ureq.token ≠ pyStrip env.uploadToken →
      upload env ureq st cu s r a b c so wo =
        (Outcome.redirect ⟨"上传口令不正确", "error"⟩, st)) ∧
    (pyStrip env.uploadToken ≠ "" → pyStrip dreq.token ≠ pyStrip env.uploadToken →
      delete env dreq st d s r u w =
        (Outcome.redirect ⟨"管理口令不正确", "error"⟩, st)) ∧
    (pyStrip env.uploadToken = "" → ∀ t,
      upload env { ureq with token := t } st cu s r a b c so wo =
        upload env ureq st cu s r a b c so wo ∧
      delete env { dreq with token := t } st d s r u w =
        delete env dreq st d s r u w) := by
  refine ⟨?_, ?_, ?_⟩
  · intro h1 h2
    simp [upload, h1, h2]
  · intro h1 h2
    simp [delete, h1, h2]
  · intro h t
    constructor
    · simp [upload, h]
    · simp [delete, h]

/-- C9: with the remote backend active, _save_items returns without
writing, and neither upload nor delete changes the JSON index file,
whatever request or external outcome occurs (_load_items is a read-only
query, so listing cannot change it either). -/
theorem claim9_remote_mode_never_writes_index (env : Env) (ureq : UploadRequest)
    (dreq : DeleteRequest) (st : LocalState) (cu d : Except PyExn Unit)
    (s r : Except PyExn (List Asset)) (a b c : String) (so wo u w wOk : Bool)
    (items : List Item) (df : DataFile)
    (hcloud : env.useCloudinary = true) :
    save_items env items wOk df = Except.ok df ∧
    ((upload env ureq st cu s r a b c so wo).2).dataFile = st.dataFile ∧
    ((delete env dreq st d s r u w).2).dataFile = st.dataFile := by
  refine ⟨by simp [save_items, hcloud], ?_, ?_⟩
  · simp [upload, load_items, save_items, hcloud]
    repeat' split
    all_goals rfl
  · simp [delete, load_items, save_items, hcloud]
    repeat' split
    all_goals rfl

/-- C5 witness: deleting old.png from a concrete one-file, one-record state
succeeds, a repeat delete succeeds even with a failing unlink oracle, and
no record referencing the locator remains after either call. -/
theorem claim5_local_delete_idempotent_witness :
    env0.useCloudinary = false ∧
    pyStrip delReq0.filename ≠ "" ∧
    ((delete env0 delReq0 st0 (Except.ok ()) (Except.ok []) (Except.ok []) true true).1
        = Outcome.redirect ⟨"已删除", "success"⟩ ∧
     (delete env0 delReq0
        (delete env0 delReq0 st0 (Except.ok ()) (Except.ok []) (Except.ok []) true true).2
        (Except.ok ()) (Except.ok []) (Except.ok []) false true).1
        = Outcome.redirect ⟨"已删除", "success"⟩ ∧
     (∀ i ∈ localLoadItems
        (delete env0 delReq0 st0 (Except.ok ()) (Except.ok []) (Except.ok []) true true).2.dataFile,
        i.image ≠ some (pyStrip delReq0.filename)) ∧
     (∀ i ∈ localLoadItems
        (delete env0 delReq0
          (delete env0 delReq0 st0 (Except.ok ()) (Except.ok []) (Except.ok []) true true).2
          (Except.ok ()) (Except.ok []) (Except.ok []) false true).2.dataFile,
        i.image ≠ some (pyStrip delReq0.filename))) :=
  ⟨rfl, by decide,
   claim5_local_delete_idempotent env0 delReq0 st0 (Except.ok ()) (Except.ok ())
     (Except.ok []) (Except.ok []) false rfl (Or.inl rfl) (by decide) (by decide)⟩

/-- C6 amended witness: a concrete valid local upload with a failing disk
write raises out of the handler and leaves the state unchanged. -/
theorem claim6_amended_local_write_failure_raises_witness :
    env0.useCloudinary = false ∧
    (∃ n, upReq0.file = some n ∧ n ≠ "" ∧
      pyLower (pathSuffix (secure_filename n)) ∈ ALLOWED_EXTS) ∧
    upload env0 upReq0 st0 (Except.ok ()) (Except.ok []) (Except.ok [])
        "aaaa" "bbbb" "2024-06-06T00:00:00" false true =
      (Outcome.raised (PyExn.mk "OSError: file save failed"), st0) :=
  ⟨rfl, ⟨"photo.png", rfl, by decide, by decide⟩,
   claim6_amended_local_write_failure_raises env0 upReq0 st0 (Except.ok ())
     (Except.ok []) (Except.ok []) "aaaa" "bbbb" "2024-06-06T00:00:00" true rfl
     (Or.inl rfl) ⟨"photo.png", rfl, by decide, by decide⟩⟩

/-- C7 amended witness: the mapping evaluated on concrete assets. -/
theorem claim7_amended_record_mapping_witness :
    (∀ i ∈ [assetToItem sampleAsset], ∃ a, i = assetToItem a) ∧
    (assetToItem sampleAsset).source = "cloud" ∧
    (assetToItem sampleAsset).id = some "asset-1" ∧
    (assetToItem sampleAsset).caption = "hello" ∧
    (assetToItem sampleAsset).created_at = "2024-05-05T10:00:00" ∧
    (assetToItem sampleAsset).image_url = some (cloudinary_url "limgp_moments/pic1") ∧
    (assetToItem noPublicIdAsset).image_url = pyOr noPublicIdAsset.secure_url noPublicIdAsset.url :=
  ⟨claim7_amended_record_mapping.1 (Except.ok [sampleAsset]) (Except.ok [])
      [assetToItem sampleAsset] (by simp [remoteLoadItems, sortByCreatedDesc]),
   (claim7_amended_record_mapping.2 sampleAsset).1,
   (claim7_amended_record_mapping.2 sampleAsset).2.2.1 "asset-1" rfl (by decide),
   (claim7_amended_record_mapping.2 sampleAsset).2.2.2.2.1 "hello" (by decide),
   (claim7_amended_record_mapping.2 sampleAsset).2.2.2.2.2.2.1 "2024-05-05T10:00:00" rfl,
   (claim7_amended_record_mapping.2 sampleAsset).2.2.2.2.2.2.2.1 "limgp_moments/pic1" rfl (by decide),
   (claim7_amended_record_mapping.2 noPublicIdAsset).2.2.2.2.2.2.2.2 (Or.inl rfl)⟩

/-- C8 witness: with the secret s3cret configured and the wrong token nope
supplied, upload and delete redirect with the error message and an
untouched state; with no secret configured the token value is irrelevant. -/
theorem claim8_token_check_witness :
    pyStrip env1.uploadToken ≠ "" ∧
    pyStrip upReqWrong.token ≠ pyStrip env1.uploadToken ∧
    pyStrip delReqWrong.token ≠ pyStrip env1.uploadToken ∧
    upload env1 upReqWrong st0 (Except.ok ()) (Except.ok []) (Except.ok [])
        "aaaa" "bbbb" "cccc" true true =
      (Outcome.redirect ⟨"上传口令不正确", "error"⟩, st0) ∧
    delete env1 delReqWrong st0 (Except.ok ()) (Except.ok []) (Except.ok []) true true =
      (Outcome.redirect ⟨"管理口令不正确", "error"⟩, st0) ∧
    pyStrip env0.uploadToken = "" ∧
    (upload env0 { upReqWrong with token := "zzz" } st0 (Except.ok ()) (Except.ok [])
        (Except.ok []) "aaaa" "bbbb" "cccc" true true =
      upload env0 upReqWrong st0 (Except.ok ()) (Except.ok []) (Except.ok [])
        "aaaa" "bbbb" "cccc" true true ∧
     delete env0 { delReqWrong with token := "zzz" } st0 (Except.ok ()) (Except.ok [])
        (Except.ok []) true true =
      delete env0 delReqWrong st0 (Except.ok ()) (Except.ok []) (Except.ok []) true true) :=
  ⟨by decide, by decide, by decide,
   (claim8_token_check env1 upReqWrong delReqWrong st0 (Except.ok ()) (Except.ok ())
      (Except.ok []) (Except.ok []) "aaaa" "bbbb" "cccc" true true true true).1
      (by decide) (by decide),
   (claim8_token_check env1 upReqWrong delReqWrong st0 (Except.ok ()) (Except.ok ())
      (Except.ok []) (Except.ok []) "aaaa" "bbbb" "cccc" true true true true).2.1
      (by decide) (by decide),
   by decide,
   (claim8_token_check env0 upReqWrong delReqWrong st0 (Except.ok ()) (Except.ok ())
      (Except.ok []) (Except.ok []) "aaaa" "bbbb" "cccc" true true true true).2.2
      (by decide) "zzz"⟩

/-- C9 witness: with the remote backend active, concrete upload and delete
calls leave the index file untouched, and _save_items returns it as is. -/
theorem claim9_remote_mode_never_writes_index_witness :
    envC.useCloudinary = true ∧
    save_items envC [oldItem] true DataFile.absent = Except.ok DataFile.absent ∧
    ((upload envC upReq0 st0 (Except.ok ()) (Except.ok []) (Except.ok [])
        "aaaa" "bbbb" "cccc" true true).2).dataFile = st0.dataFile ∧
    ((delete envC delReq0 st0 (Except.ok ()) (Except.ok []) (Except.ok []) true true).2).dataFile
      = st0.dataFile :=
  ⟨rfl,
   (claim9_remote_mode_never_writes_index envC upReq0 delReq0 st0 (Except.ok ())
      (Except.ok ()) (Except.ok []) (Except.ok []) "aaaa" "bbbb" "cccc" true true true true
      true [oldItem] DataFile.absent rfl).1,
   (claim9_remote_mode_never_writes_index envC upReq0 delReq0 st0 (Except.ok ())
      (Except.ok ()) (Except.ok []) (Except.ok []) "aaaa" "bbbb" "cccc" true true true true
      true [oldItem] DataFile.absent rfl).2.1,
   (claim9_remote_mode_never_writes_index envC upReq0 delReq0 st0 (Except.ok ())
      (Except.ok ()) (Except.ok []) (Except.ok []) "aaaa" "bbbb" "cccc" true true true true
      true [oldItem] DataFile.absent rfl).2.2⟩

/-- C10 witness: a concrete delete of an existing file with a failing
unlink returns the error redirect and leaves the state, index included,
unchanged. -/
theorem claim10_unlink_failure_leaves_index_unchanged_witness :
    pyStrip delReq0.source ≠ "cloud" ∧
    pyStrip delReq0.filename ≠ "" ∧
    pyStrip delReq0.filename ∈ st0.uploads ∧
    delete env0 delReq0 st0 (Except.ok ()) (Except.ok []) (Except.ok []) false true =
      (Outcome.redirect ⟨"删除失败，请稍后再试", "error"⟩, st0) :=
  ⟨by decide, by decide, by decide,
   claim10_unlink_failure_leaves_index_unchanged env0 delReq0 st0 (Except.ok ())
     (Except.ok []) (Except.ok []) true (Or.inl rfl) (by decide) (by decide) (by decide)⟩

end LimgpMoments
